import Mathlib

/-!
Verification of the `cdl` PDF form-filling pipeline (`src/fill_pdf.py`).

The parser and mapper are embedded directly from the source.  The pypdf
collaborator (document loading, page copying, field updates, serialization)
is external to the repository; its operations are modelled from the spec's
interface section (§6) and marked `Modelled from the spec:` below.
-/

namespace FillPdf

/-- Python `str.split("\t")` on the character list: splitting an empty string
yields one empty part, and every tab starts a fresh part. -/
def splitTabChars : List Char → List (List Char)
  | [] => [[]]
  | c :: rest =>
    match splitTabChars rest, decide (c = '\t') with
    | r, true => [] :: r
    | [], false => [[c]]
    | h :: t, false => (c :: h) :: t

/-- Embeds the Python call `input_data_string.split("\t")`. -/
def pySplitTab (s : String) : List String :=
  (splitTabChars s.data).map (fun cs => String.mk cs)

/-- Embeds the inner `safe` helper of `parse_tab_delimited_input`:
`parts_list[index] if index < len(parts_list) else ""`. -/
def safe (parts_list : List String) (index : Nat) : String :=
  parts_list.getD index ""

/-- Embeds `parse_tab_delimited_input`: split the input on the tab character
and build the nine-key mapping by safe positional lookup.  The Python dict is
represented as an association list in insertion order. -/
def parse_tab_delimited_input (input_data_string : String) : List (String × String) :=
  let parts : List String := pySplitTab input_data_string
  [("id_class", safe parts 0),
   ("ten_hv", safe parts 4),
   ("id_hv", safe parts 3),
   ("ngay_bat_dau", safe parts 7),
   ("id_gs", safe parts 9),
   ("ten_gs", safe parts 10),
   ("san_pham", safe parts 13),
   ("quan_ly_lop", safe parts 17),
   ("cvcm_phu_trach", safe parts 18)]

/-- The nine ParsedFields keys, in the order the source builds them. -/
def parsedFieldKeys : List String :=
  ["id_class", "ten_hv", "id_hv", "ngay_bat_dau", "id_gs", "ten_gs",
   "san_pham", "quan_ly_lop", "cvcm_phu_trach"]

/-- Embeds `build_pdf_field_values`: the static renaming table from ParsedFields
keys to the ten PDF field names; `data_map.get(k, "")` becomes
`(data_map.lookup k).getD ""`. -/
def build_pdf_field_values (data_map : List (String × String)) : List (String × String) :=
  [("ma_lop", (data_map.lookup "id_class").getD ""),
   ("ma_hoc_vien", (data_map.lookup "id_hv").getD ""),
   ("ho_ten_hv", (data_map.lookup "ten_hv").getD ""),
   ("ngay_bat_dau_cong_tac", (data_map.lookup "ngay_bat_dau").getD ""),
   ("ma_gia_su", (data_map.lookup "id_gs").getD ""),
   ("ho_ten_gs", (data_map.lookup "ten_gs").getD ""),
   ("mon_lop", (data_map.lookup "san_pham").getD ""),
   ("quan_ly_lop_phu_trach", (data_map.lookup "quan_ly_lop").getD ""),
   ("co_van_chuyen_mon", (data_map.lookup "cvcm_phu_trach").getD ""),
   ("ten_gia_su_ky_ten", (data_map.lookup "ten_gs").getD "")]

/-- The ten FormFieldValues keys, in the order the source builds them. -/
def formFieldKeys : List String :=
  ["ma_lop", "ma_hoc_vien", "ho_ten_hv", "ngay_bat_dau_cong_tac", "ma_gia_su",
   "ho_ten_gs", "mon_lop", "quan_ly_lop_phu_trach", "co_van_chuyen_mon",
   "ten_gia_su_ky_ten"]

/-- The spec sentence's reading of positional lookup: the part at the index
when the split sequence is at least that long, otherwise the empty string. -/
def partAt (parts : List String) (i : Nat) : String :=
  if h : i < parts.length then parts.get ⟨i, h⟩ else ""

/-- The Scenario 1 input line. -/
def scenario1Input : String :=
  "C01\t\t\tHV1\tNguyen Van A\t\t\t2024-01-01\t\tGS1\tTran Thi B"

theorem safe_eq_partAt (l : List String) (i : Nat) : safe l i = partAt l i := by
  rcases Nat.lt_or_ge i l.length with h | h
  · simp [safe, partAt, h, List.getD_eq_getElem?_getD, List.getElem?_eq_getElem h,
      List.get_eq_getElem]
  · simp [safe, partAt, Nat.not_lt.mpr h, List.getD_eq_getElem?_getD,
      List.getElem?_eq_none h]

/-- C1: for every input string the parser splits on the tab character and
yields exactly the nine keys, each bound to the part at its fixed index
(0, 4, 3, 7, 9, 10, 13, 17, 18) when the split sequence is long enough and
the empty string otherwise, never failing; and on the Scenario 1 input it
yields the stated values. -/
theorem parse_tab_delimited_input_correct (s : String) :
    ((parse_tab_delimited_input s).map Prod.fst = parsedFieldKeys) ∧
    ((parse_tab_delimited_input s).lookup "id_class" = some (partAt (pySplitTab s) 0)) ∧
    ((parse_tab_delimited_input s).lookup "ten_hv" = some (partAt (pySplitTab s) 4)) ∧
    ((parse_tab_delimited_input s).lookup "id_hv" = some (partAt (pySplitTab s) 3)) ∧
    ((parse_tab_delimited_input s).lookup "ngay_bat_dau" = some (partAt (pySplitTab s) 7)) ∧
    ((parse_tab_delimited_input s).lookup "id_gs" = some (partAt (pySplitTab s) 9)) ∧
    ((parse_tab_delimited_input s).lookup "ten_gs" = some (partAt (pySplitTab s) 10)) ∧
    ((parse_tab_delimited_input s).lookup "san_pham" = some (partAt (pySplitTab s) 13)) ∧
    ((parse_tab_delimited_input s).lookup "quan_ly_lop" = some (partAt (pySplitTab s) 17)) ∧
    ((parse_tab_delimited_input s).lookup "cvcm_phu_trach" = some (partAt (pySplitTab s) 18)) ∧
    ((parse_tab_delimited_input scenario1Input).lookup "id_class" = some "C01") ∧
    ((parse_tab_delimited_input scenario1Input).lookup "id_hv" = some "HV1") ∧
    ((parse_tab_delimited_input scenario1Input).lookup "ten_hv" = some "Nguyen Van A") ∧
    ((parse_tab_delimited_input scenario1Input).lookup "ngay_bat_dau" = some "2024-01-01") ∧
    ((parse_tab_delimited_input scenario1Input).lookup "id_gs" = some "GS1") ∧
    ((parse_tab_delimited_input scenario1Input).lookup "ten_gs" = some "Tran Thi B") ∧
    ((parse_tab_delimited_input scenario1Input).lookup "san_pham" = some "") ∧
    ((parse_tab_delimited_input scenario1Input).lookup "quan_ly_lop" = some "") ∧
    ((parse_tab_delimited_input scenario1Input).lookup "cvcm_phu_trach" = some "") := by
  refine ⟨rfl, ?_, ?_, ?_, ?_, ?_, ?_, ?_, ?_, ?_,
    by decide, by decide, by decide, by decide, by decide, by decide,
    by decide, by decide, by decide⟩ <;>
    simp [parse_tab_delimited_input, List.lookup, safe_eq_partAt]

/-- C2: for every ParsedFields mapping, the mapper yields exactly the ten PDF
field keys of the static renaming table, each bound to the looked-up source
value with the empty string as default, and `ten_gia_su_ky_ten` always equals
`ho_ten_gs` (both copy `ten_gs`). -/
theorem build_pdf_field_values_correct (data_map : List (String × String)) :
    ((build_pdf_field_values data_map).map Prod.fst = formFieldKeys) ∧
    ((build_pdf_field_values data_map).lookup "ma_lop"
      = some ((data_map.lookup "id_class").getD "")) ∧
    ((build_pdf_field_values data_map).lookup "ma_hoc_vien"
      = some ((data_map.lookup "id_hv").getD "")) ∧
    ((build_pdf_field_values data_map).lookup "ho_ten_hv"
      = some ((data_map.lookup "ten_hv").getD "")) ∧
    ((build_pdf_field_values data_map).lookup "ngay_bat_dau_cong_tac"
      = some ((data_map.lookup "ngay_bat_dau").getD "")) ∧
    ((build_pdf_field_values data_map).lookup "ma_gia_su"
      = some ((data_map.lookup "id_gs").getD "")) ∧
    ((build_pdf_field_values data_map).lookup "ho_ten_gs"
      = some ((data_map.lookup "ten_gs").getD "")) ∧
    ((build_pdf_field_values data_map).lookup "mon_lop"
      = some ((data_map.lookup "san_pham").getD "")) ∧
    ((build_pdf_field_values data_map).lookup "quan_ly_lop_phu_trach"
      = some ((data_map.lookup "quan_ly_lop").getD "")) ∧
    ((build_pdf_field_values data_map).lookup "co_van_chuyen_mon"
      = some ((data_map.lookup "cvcm_phu_trach").getD "")) ∧
    ((build_pdf_field_values data_map).lookup "ten_gia_su_ky_ten"
      = some ((data_map.lookup "ten_gs").getD "")) ∧
    ((build_pdf_field_values data_map).lookup "ten_gia_su_ky_ten"
      = (build_pdf_field_values data_map).lookup "ho_ten_gs") := by
  refine ⟨rfl, ?_, ?_, ?_, ?_, ?_, ?_, ?_, ?_, ?_, ?_, ?_⟩ <;>
    simp [build_pdf_field_values, List.lookup]

/-- A page's form fields: association list from field name to current value. -/
abbrev Page := List (String × String)

/-- Modelled from the spec: the collaborator's PDF document (§6) is its page
list plus the form-level NeedAppearances flag. -/
structure Document where
  pages : List Page
  needAppearances : Bool
deriving DecidableEq

/-- Modelled from the spec: `PdfWriter.add_page` appends a structural copy of
the page to the writer's page list. -/
def add_page (w : Document) (p : Page) : Document :=
  { w with pages := w.pages ++ [p] }

/-- Modelled from the spec: `update_page_form_field_values` updates on a page
every field whose name is a key of the mapping and leaves the rest untouched;
mapping keys matching no field on the page are silently ignored. -/
def update_page_form_field_values (p : Page) (fields : List (String × String)) : Page :=
  p.map (fun nv =>
    match fields.lookup nv.1 with
    | some v => (nv.1, v)
    | none => nv)

/-- Embeds `set_need_appearances`: set the form-level NeedAppearances flag to
true.  `hintOk` models whether the collaborator's internal AcroForm structure
permits the update; the `except Exception: pass` in the source makes a failed
attempt a no-op on the writer. -/
def set_need_appearances (hintOk : Bool) (w : Document) : Document :=
  if hintOk then { w with needAppearances := true } else w

/-- Modelled from the spec: the error pypdf raises when the template is
missing, unreadable or not a valid PDF. -/
inductive DocumentLoadError where
  | loadFailed (msg : String)
deriving DecidableEq

/-- Embeds `fill_pdf_form`: parse and map the input, open the template
(`template` is the outcome of the `PdfReader` call), copy every page into a
fresh writer, apply the best-effort NeedAppearances hint, update the computed
field values on every page of the writer, and return the document that is
then serialized to the output path.  A load error propagates unchanged and no
document is produced. -/
def fill_pdf_form (input_data_string : String)
    (template : Except DocumentLoadError Document) (hintOk : Bool) :
    Except DocumentLoadError Document :=
  let fields_to_fill := build_pdf_field_values (parse_tab_delimited_input input_data_string)
  match template with
  | .error e => .error e
  | .ok reader =>
    let writer : Document := reader.pages.foldl add_page ⟨[], false⟩
    let writer := set_need_appearances hintOk writer
    .ok { writer with
      pages := writer.pages.map (fun pg => update_page_form_field_values pg fields_to_fill) }

/-- A pypdf form field as `list_form_fields` inspects it: either a dictionary
with an optional `/V` entry, or a non-dictionary object. -/
inductive PdfField where
  | dict (v : Option String)
  | nondict
deriving DecidableEq

/-- Modelled from the spec: the reader-side accessors of the collaborator.
`textFields` is the outcome of `reader.get_form_text_fields()` (values may be
`None`), `allFields` the outcome of `reader.get_fields()` (which may itself
return `None`); `.error` models the accessor raising. -/
structure FormReader where
  textFields : Except Unit (List (String × Option String))
  allFields : Except Unit (Option (List (String × PdfField)))

/-- Embeds `list_form_fields` on an opened template: prefer the text-field
accessor with `None` values normalized to `""`; on failure fall back to
`get_fields()` and extract each field's `/V` value; if that also fails,
return the empty mapping. -/
def list_form_fields (reader : FormReader) : List (String × String) :=
  match reader.textFields with
  | .ok fields => fields.map (fun nv => (nv.1, nv.2.getD ""))
  | .error _ =>
    match reader.allFields with
    | .ok fields2 =>
      (fields2.getD []).map (fun nf =>
        (nf.1, match nf.2 with
          | .dict v => v.getD ""
          | .nondict => ""))
    | .error _ => []

/-- Python's notion of whitespace stripped by `str.strip()` (ASCII cases). -/
def isPySpace (c : Char) : Bool :=
  c = ' ' || c = '\t' || c = '\n' || c = '\r' || c = '\x0b' || c = '\x0c'

/-- Embeds the Python call `text.strip()`. -/
def pyStrip (s : String) : String :=
  String.mk (((s.data.dropWhile isPySpace).reverse.dropWhile isPySpace).reverse)

/-- Observable outcome of one run of the `fill` subcommand. -/
structure FillRunResult where
  exitCode : Nat
  dataFileRead : Bool
  inputUsed : Option String
  outputWritten : Option Document
deriving DecidableEq

/-- Embeds the `fill` branch of `main`, with its file-system effects made
explicit: `fileContent` gives the text of the `--data-file` path, `template`
the outcome of loading the template PDF, `dataFileRead` records whether the
data file was read, and `outputWritten` the document serialized to the output
path (`none` when nothing is written).  `parser.error` exits with code 2
before any PDF I/O; an uncaught load error exits non-zero with no output. -/
def run_fill_command (data : Option String) (data_file : Option String)
    (fileContent : String → String)
    (template : Except DocumentLoadError Document) (hintOk : Bool) :
    FillRunResult :=
  if data = none ∧ data_file = none then
    { exitCode := 2, dataFileRead := false, inputUsed := none, outputWritten := none }
  else
    match data_file with
    | some p =>
      let input_string := pyStrip (fileContent p)
      match fill_pdf_form input_string template hintOk with
      | .error _ =>
        { exitCode := 1, dataFileRead := true, inputUsed := some input_string,
          outputWritten := none }
      | .ok doc =>
        { exitCode := 0, dataFileRead := true, inputUsed := some input_string,
          outputWritten := some doc }
    | none =>
      let input_string := data.getD ""
      match fill_pdf_form input_string template hintOk with
      | .error _ =>
        { exitCode := 1, dataFileRead := false, inputUsed := some input_string,
          outputWritten := none }
      | .ok doc =>
        { exitCode := 0, dataFileRead := false, inputUsed := some input_string,
          outputWritten := some doc }

/-- Modelled from the spec: opening a just-written filled document reports
each page's fields and current values through the text-field accessor. -/
def readerOfDocument (d : Document) : FormReader :=
  { textFields := .ok ((d.pages.flatten).map (fun nv => (nv.1, some nv.2))),
    allFields := .ok none }

theorem foldl_add_page (ps : List Page) (pgs : List Page) (b : Bool) :
    ps.foldl add_page ⟨pgs, b⟩ = ⟨pgs ++ ps, b⟩ := by
  induction ps generalizing pgs with
  | nil => simp
  | cons p t ih => simp [add_page, ih]

theorem fill_ok_eq (raw : String) (tpl : Document) (hintOk : Bool) :
    fill_pdf_form raw (.ok tpl) hintOk
      = .ok ⟨tpl.pages.map (fun pg => update_page_form_field_values pg
              (build_pdf_field_values (parse_tab_delimited_input raw))), hintOk⟩ := by
  cases hintOk <;>
    simp [fill_pdf_form, foldl_add_page, set_need_appearances]

/-- C3 fails as stated: invoking `fill` with both `--data` and `--data-file`
is not rejected as a usage error; the run succeeds and writes the output. -/
theorem fill_both_options_not_rejected :
    (run_fill_command (some "x") (some "f.txt") (fun _ => "y")
      (.ok ⟨[[("ma_lop", "")]], false⟩) true).exitCode = 0 ∧
    (run_fill_command (some "x") (some "f.txt") (fun _ => "y")
      (.ok ⟨[[("ma_lop", "")]], false⟩) true).outputWritten.isSome = true := by
  decide

/-- C3 (amended): the `fill` subcommand requires at least one of `--data` and
`--data-file`: the run is a usage error — exit code 2, the data file not
read, no input consumed and no output file written, before any PDF I/O —
exactly when neither option is supplied (supplying both is accepted). -/
theorem fill_usage_error_iff_neither_option (data data_file : Option String)
    (fileContent : String → String) (template : Except DocumentLoadError Document)
    (hintOk : Bool) :
    (run_fill_command data data_file fileContent template hintOk
        = { exitCode := 2, dataFileRead := false, inputUsed := none,
            outputWritten := none })
      ↔ (data = none ∧ data_file = none) := by
  constructor
  · intro h
    by_cases hcond : data = none ∧ data_file = none
    · exact hcond
    · exfalso
      cases data_file with
      | some p =>
        cases hf : fill_pdf_form (pyStrip (fileContent p)) template hintOk <;>
          simp [run_fill_command, hcond, hf] at h
      | none =>
        by_cases hd : data = none
        · exact hcond ⟨hd, rfl⟩
        · cases hf : fill_pdf_form (data.getD "") template hintOk <;>
            simp [run_fill_command, hd, hf] at h
  · rintro ⟨h1, h2⟩
    subst h1
    subst h2
    simp [run_fill_command]

/-- C4 fails as stated: with both `--data` and `--data-file` supplied, the
data file is read and its content, not the `--data` string, is the input. -/
theorem data_file_read_despite_data :
    (run_fill_command (some "a\tb") (some "in.txt") (fun _ => "c\td")
      (.ok ⟨[], false⟩) true).dataFileRead = true ∧
    (run_fill_command (some "a\tb") (some "in.txt") (fun _ => "c\td")
      (.ok ⟨[], false⟩) true).inputUsed = some "c\td" := by
  decide

/-- C4 (amended): the `--data-file` path is read whenever it is supplied,
even when `--data` is also supplied; the `--data` string is used as the raw
input (and the file left unread) only when `--data-file` is absent. -/
theorem data_file_read_iff_supplied (data : Option String) (p d : String)
    (fileContent : String → String) (template : Except DocumentLoadError Document)
    (hintOk : Bool) :
    ((run_fill_command data (some p) fileContent template hintOk).dataFileRead
        = true) ∧
    ((run_fill_command data (some p) fileContent template hintOk).inputUsed
        = some (pyStrip (fileContent p))) ∧
    ((run_fill_command (some d) none fileContent template hintOk).dataFileRead
        = false) ∧
    ((run_fill_command (some d) none fileContent template hintOk).inputUsed
        = some d) := by
  refine ⟨?_, ?_, ?_, ?_⟩
  · cases hf : fill_pdf_form (pyStrip (fileContent p)) template hintOk <;>
      simp [run_fill_command, hf]
  · cases hf : fill_pdf_form (pyStrip (fileContent p)) template hintOk <;>
      simp [run_fill_command, hf]
  · cases hf : fill_pdf_form d template hintOk <;>
      simp [run_fill_command, hf]
  · cases hf : fill_pdf_form d template hintOk <;>
      simp [run_fill_command, hf]

/-- C5: when both `--data` and `--data-file` are supplied, the run uses the
stripped data-file content as the raw input and is entirely independent of
the `--data` value: `--data-file` takes silent precedence. -/
theorem data_file_silent_precedence (d₁ d₂ p : String)
    (fileContent : String → String) (template : Except DocumentLoadError Document)
    (hintOk : Bool) :
    run_fill_command (some d₁) (some p) fileContent template hintOk
      = run_fill_command (some d₂) (some p) fileContent template hintOk ∧
    (run_fill_command (some d₁) (some p) fileContent template hintOk).inputUsed
      = some (pyStrip (fileContent p)) := by
  constructor <;>
  · cases hf : fill_pdf_form (pyStrip (fileContent p)) template hintOk <;>
      simp [run_fill_command, hf]

/-- C6: filling a loadable template produces exactly the template's pages in
their original order, with the form-field update operation applied to every
page of the output document; the page count is unchanged. -/
theorem fill_pdf_form_pages (raw : String) (tpl : Document) (hintOk : Bool) :
    fill_pdf_form raw (.ok tpl) hintOk
      = .ok ⟨tpl.pages.map (fun pg => update_page_form_field_values pg
              (build_pdf_field_values (parse_tab_delimited_input raw))), hintOk⟩ ∧
    (tpl.pages.map (fun pg => update_page_form_field_values pg
        (build_pdf_field_values (parse_tab_delimited_input raw)))).length
      = tpl.pages.length :=
  ⟨fill_ok_eq raw tpl hintOk, by simp⟩

/-- C7: when the template cannot be loaded, the fill fails with the
propagated DocumentLoadError, the process exits non-zero (code 1) and no
file is created at the output path. -/
theorem fill_load_error_propagates (raw : String) (e : DocumentLoadError)
    (hintOk : Bool) (d : String) (data_file : Option String)
    (fileContent : String → String) :
    fill_pdf_form raw (.error e) hintOk = .error e ∧
    (run_fill_command (some d) data_file fileContent (.error e) hintOk).outputWritten
      = none ∧
    (run_fill_command (some d) data_file fileContent (.error e) hintOk).exitCode
      = 1 := by
  refine ⟨rfl, ?_, ?_⟩ <;>
    cases data_file <;> simp [run_fill_command, fill_pdf_form]

/-- C8: the NeedAppearances hint is best-effort: a failed hint leaves the
writer untouched, a successful one only sets the flag, and the fill succeeds
with identical pages (and identical field updates and serialization) whether
the hint step succeeds or fails. -/
theorem need_appearances_best_effort (raw : String) (tpl : Document)
    (w : Document) :
    set_need_appearances false w = w ∧
    set_need_appearances true w = { w with needAppearances := true } ∧
    ∃ outT outF,
      fill_pdf_form raw (.ok tpl) true = .ok outT ∧
      fill_pdf_form raw (.ok tpl) false = .ok outF ∧
      outT.pages = outF.pages ∧
      outT.needAppearances = true ∧
      outF.needAppearances = false :=
  ⟨rfl, rfl, _, _, fill_ok_eq raw tpl true, fill_ok_eq raw tpl false, rfl, rfl, rfl⟩

/-- C9: once the template is open, list-fields is a total function; it
returns the text-field mapping with null values normalized to the empty
string, falls back on the low-level accessor's per-field `/V` value when the
text-field accessor raises, and returns the empty mapping when both raise. -/
theorem list_form_fields_cases (reader : FormReader) :
    (∀ fields, reader.textFields = .ok fields →
      list_form_fields reader = fields.map (fun nv => (nv.1, nv.2.getD ""))) ∧
    (∀ fields2, reader.textFields = .error () → reader.allFields = .ok fields2 →
      list_form_fields reader
        = (fields2.getD []).map (fun nf =>
            (nf.1, match nf.2 with
              | .dict v => v.getD ""
              | .nondict => ""))) ∧
    (reader.textFields = .error () → reader.allFields = .error () →
      list_form_fields reader = []) := by
  refine ⟨?_, ?_, ?_⟩
  · intro fields h
    simp [list_form_fields, h]
  · intro fields2 h1 h2
    simp [list_form_fields, h1, h2]
  · intro h1 h2
    simp [list_form_fields, h1, h2]

/-- Witness for C9: one concrete reader per branch of the fallback chain. -/
theorem list_form_fields_cases_witness :
    list_form_fields ⟨.ok [("a", none), ("b", some "v")], .ok none⟩
      = [("a", ""), ("b", "v")] ∧
    list_form_fields
        ⟨.error (), .ok (some [("c", .dict (some "w")), ("d", .dict none),
          ("e", .nondict)])⟩
      = [("c", "w"), ("d", ""), ("e", "")] ∧
    list_form_fields ⟨.error (), .error ()⟩ = [] :=
  ⟨(list_form_fields_cases ⟨.ok [("a", none), ("b", some "v")], .ok none⟩).1
      [("a", none), ("b", some "v")] rfl,
   (list_form_fields_cases
        ⟨.error (), .ok (some [("c", .dict (some "w")), ("d", .dict none),
          ("e", .nondict)])⟩).2.1
      (some [("c", .dict (some "w")), ("d", .dict none), ("e", .nondict)]) rfl rfl,
   (list_form_fields_cases ⟨.error (), .error ()⟩).2.2 rfl rfl⟩

theorem update_preserves_names (p : Page) (m : List (String × String)) :
    (update_page_form_field_values p m).map Prod.fst = p.map Prod.fst := by
  induction p with
  | nil => rfl
  | cons a t ih =>
    cases hm : m.lookup a.1 <;>
      simp [update_page_form_field_values, hm, ih] <;>
      simpa [update_page_form_field_values] using ih

theorem update_value_eq (p : Page) (m : List (String × String)) (name v : String)
    (hm : m.lookup name = some v) :
    ∀ q ∈ update_page_form_field_values p m, q.1 = name → q.2 = v := by
  intro q hq hname
  simp only [update_page_form_field_values, List.mem_map] at hq
  obtain ⟨a, _, rfl⟩ := hq
  cases hla : m.lookup a.1 with
  | some w =>
    simp only [hla] at hname ⊢
    subst hname
    rw [hla] at hm
    exact (Option.some_inj.mp hm).symm ▸ rfl
  | none =>
    simp only [hla] at hname ⊢
    subst hname
    rw [hla] at hm
    exact absurd hm (by simp)

theorem lookup_of_all_eq (l : List (String × String)) (name v : String)
    (hmem : name ∈ l.map Prod.fst)
    (hall : ∀ q ∈ l, q.1 = name → q.2 = v) :
    l.lookup name = some v := by
  induction l with
  | nil => simp at hmem
  | cons a t ih =>
    obtain ⟨k, b⟩ := a
    by_cases hk : name = k
    · have hb : b = v := hall (k, b) (List.mem_cons_self _ _) hk.symm
      simp [List.lookup_cons, hk, hb]
    · have hmem' : name ∈ t.map Prod.fst := by
        rcases List.mem_map.mp hmem with ⟨q, hq, hq1⟩
        rcases List.mem_cons.mp hq with rfl | hqt
        · exact absurd hq1.symm hk
        · exact List.mem_map.mpr ⟨q, hqt, hq1⟩
      have := ih hmem' (fun q hq hqn => hall q (List.mem_cons_of_mem _ hq) hqn)
      simp [List.lookup_cons, beq_false_of_ne hk, this]

theorem flatten_update_names (ps : List Page) (m : List (String × String)) :
    ((ps.map (fun pg => update_page_form_field_values pg m)).flatten).map Prod.fst
      = (ps.flatten).map Prod.fst := by
  induction ps with
  | nil => rfl
  | cons p t ih => simp [update_preserves_names, ih]

theorem flatten_update_value_eq (ps : List Page) (m : List (String × String))
    (name v : String) (hm : m.lookup name = some v) :
    ∀ q ∈ (ps.map (fun pg => update_page_form_field_values pg m)).flatten,
      q.1 = name → q.2 = v := by
  intro q hq
  rcases List.mem_flatten.mp hq with ⟨pg', hpg', hqpg⟩
  rcases List.mem_map.mp hpg' with ⟨pg, _, rfl⟩
  exact update_value_eq pg m name v hm q hqpg

theorem list_form_fields_readerOf (d : Document) :
    list_form_fields (readerOfDocument d) = d.pages.flatten := by
  have hcomp : ((fun nv : String × Option String => (nv.1, nv.2.getD "")) ∘
      (fun nv : String × String => (nv.1, some nv.2)))
      = (id : String × String → String × String) := by
    funext nv
    rfl
  simp [list_form_fields, readerOfDocument, List.map_map, hcomp]

/-- C10: round-trip — after filling a loadable template, listing the fields
of the produced output reports, for every mapped field name present in the
template, exactly the value supplied for it in FormFieldValues. -/
theorem fill_list_round_trip (tpl : Document) (raw : String) (name v : String)
    (hintOk : Bool)
    (hv : (build_pdf_field_values (parse_tab_delimited_input raw)).lookup name
        = some v)
    (hpresent : name ∈ (tpl.pages.flatten).map Prod.fst) :
    ∃ out, fill_pdf_form raw (.ok tpl) hintOk = .ok out ∧
      (list_form_fields (readerOfDocument out)).lookup name = some v := by
  refine ⟨_, fill_ok_eq raw tpl hintOk, ?_⟩
  rw [list_form_fields_readerOf]
  exact lookup_of_all_eq _ name v
    (by rw [flatten_update_names]; exact hpresent)
    (flatten_update_value_eq tpl.pages _ name v hv)

/-- Witness for C10: a one-page template holding the `ma_lop` field, filled
from the raw input `"C01"`, reads back `ma_lop = "C01"`. -/
theorem fill_list_round_trip_witness :
    ∃ out,
      fill_pdf_form "C01" (.ok ⟨[[("ma_lop", "old")]], false⟩) true = .ok out ∧
      (list_form_fields (readerOfDocument out)).lookup "ma_lop" = some "C01" :=
  fill_list_round_trip ⟨[[("ma_lop", "old")]], false⟩ "C01" "ma_lop" "C01" true
    (by decide) (by decide)

end FillPdf
